import Mathlib

/-!
Shallow embedding of selfdrive/controls/lib/pathplanner.py (lateral path
planner: lane-change state machine, MPC post-processing, steering-authority
limiter, per-tick publisher).

Modelling conventions:
* Python floats are modelled by exact rationals.  Values that can become
  NaN (everything derived from the MPC solver output) are modelled by the
  type `MF` (a rational or NaN); arithmetic on `MF` propagates NaN and
  comparisons with NaN are false, as for IEEE floats in Python.
* `math.pi` is the concrete double constant used by CPython; `piQ` below is
  that double's exact rational value.  `math.radians x = x * (pi / 180)` and
  `math.degrees x = x * (180 / pi)` become exact rational operations, so
  `degrees (radians x) = x` holds, as it does for the idealised real
  semantics of the source.
* External collaborators (the libmpc solver, the LanePlanner, the vehicle
  model, the message bus) enter the per-tick `update` as input fields: the
  MPC solution produced by `run_mpc` on this tick is `Inputs.sol`, the lane
  probabilities refreshed by `parse_model` are `Inputs.l_prob` etc., and
  `VM.sR` equals the `sr` passed to `VM.update_params` on the same tick
  (vehicle-model contract, spec section 6.4).  Solver-only side effects
  (`libmpc.init`, `run_mpc` marshalling, `v_ego_mpc = max(v_ego, 5.0)`,
  cloudlog output) have no observable effect on the planner state beyond
  `last_cloudlog_t` and are not otherwise modelled; the published polynomial
  fields of the pathPlan message belong to the external LanePlanner and are
  omitted from the message record.
-/

/-- Exact rational value of the IEEE-754 double `math.pi` used by CPython. -/
def piQ : ℚ := 884279719003555 / 281474976710656

/-- Exact model of `math.radians`: multiply by pi / 180. -/
def radiansQ (d : ℚ) : ℚ := d * (piQ / 180)

/-- Exact model of `math.degrees`: multiply by 180 / pi. -/
def degreesQ (r : ℚ) : ℚ := r * (180 / piQ)

/-- Modelled from the spec: `DT_MDL` = 0.05 s (common/realtime is not under
src/; spec section 3, Constants). -/
def DT_MDL : ℚ := 0.05

/-- Modelled from the spec: `CV.KPH_TO_MS` (selfdrive/config is not under
src/); `LANE_CHANGE_SPEED_MIN = 60 * CV.KPH_TO_MS` is "60 km/h in m/s". -/
def KPH_TO_MS : ℚ := 1 / 3.6

/-- Source line 20: `LANE_CHANGE_SPEED_MIN = 60 * CV.KPH_TO_MS`. -/
def LANE_CHANGE_SPEED_MIN : ℚ := 60 * KPH_TO_MS

/-- Source line 21: `LANE_CHANGE_TIME_MAX = 10.`. -/
def LANE_CHANGE_TIME_MAX : ℚ := 10

/-- Model float: a finite value (exact rational) or NaN. -/
inductive MF where
  | nan : MF
  | val : ℚ → MF
deriving DecidableEq

/-- Float addition: NaN propagates. -/
def MF.add : MF → MF → MF
  | .val a, .val b => .val (a + b)
  | _, _ => .nan

/-- Float subtraction: NaN propagates. -/
def MF.sub : MF → MF → MF
  | .val a, .val b => .val (a - b)
  | _, _ => .nan

/-- Float multiplication: NaN propagates. -/
def MF.mul : MF → MF → MF
  | .val a, .val b => .val (a * b)
  | _, _ => .nan

/-- Float strict greater-than: any comparison with NaN is false. -/
def MF.fgt : MF → MF → Bool
  | .val a, .val b => decide (b < a)
  | _, _ => false

/-- Float strict less-than: any comparison with NaN is false. -/
def MF.flt : MF → MF → Bool
  | .val a, .val b => decide (a < b)
  | _, _ => false

/-- Model of `math.isnan`. -/
def MF.isnan : MF → Bool
  | .nan => true
  | .val _ => false

/-- Model of `math.degrees` on a possibly-NaN float. -/
def MF.degrees : MF → MF
  | .nan => .nan
  | .val a => .val (degreesQ a)

/-- Modelled from the spec: `interp` from common/numpy_fast (not under src/):
piecewise-linear interpolation with flat extrapolation outside the domain,
endpoint-clamped (spec section 9, Interpolation tables).  Helper: walk the
remaining breakpoints carrying the previous breakpoint `(x0, f0)`. -/
def interpAux (x : ℚ) : ℚ → ℚ → List ℚ → List ℚ → ℚ
  | _, f0, [], _ => f0
  | _, f0, _ :: _, [] => f0
  | x0, f0, x1 :: xs, f1 :: fs =>
      if x ≤ x1 then f0 + (x - x0) * (f1 - f0) / (x1 - x0)
      else interpAux x x1 f1 xs fs

/-- Modelled from the spec: scalar `interp(x, xp, fp)` from common/numpy_fast
(not under src/): clamp to `fp.head` below the first breakpoint, interpolate
linearly inside, clamp to the last value above the last breakpoint. -/
def interp (x : ℚ) : List ℚ → List ℚ → ℚ
  | [], _ => 0
  | _ :: _, [] => 0
  | x0 :: xs, f0 :: fs => if x ≤ x0 then f0 else interpAux x x0 f0 xs fs

/-- Enum `log.PathPlan.LaneChangeState`. -/
inductive LaneChangeState where
  | off
  | preLaneChange
  | laneChangeStarting
  | laneChangeFinishing
  | laneChangeDone
deriving DecidableEq

/-- Enum `log.PathPlan.LaneChangeDirection`. -/
inductive LaneChangeDirection where
  | none
  | left
  | right
deriving DecidableEq

/-- Enum `log.PathPlan.Desire` (the values used by this module). -/
inductive Desire where
  | none
  | laneChangeLeft
  | laneChangeRight
deriving DecidableEq

/-- Source lines 23-45: the `DESIRES` table, indexed by direction then
state. -/
def desire_of : LaneChangeDirection → LaneChangeState → Desire
  | .none, _ => .none
  | .left, .laneChangeStarting => .laneChangeLeft
  | .left, .laneChangeFinishing => .laneChangeLeft
  | .left, .laneChangeDone => .laneChangeLeft
  | .left, _ => .none
  | .right, .laneChangeStarting => .laneChangeRight
  | .right, .laneChangeFinishing => .laneChangeRight
  | .right, .laneChangeDone => .laneChangeRight
  | .right, _ => .none

/-- The solver state struct `state_t` (`cur_state[0]`): x, y, psi, delta. -/
structure KinState where
  x : MF
  y : MF
  psi : MF
  delta : MF
deriving DecidableEq

/-- Source lines 48-51: `calc_states_after_delay` overwrites `x` and `psi`
and leaves `y` and `delta` untouched. -/
def calc_states_after_delay (states : KinState) (v_ego steer_angle
    curvature_factor steer_ratio delay : ℚ) : KinState :=
  { states with
    x := MF.val (v_ego * delay),
    psi := MF.val (v_ego * curvature_factor * radiansQ steer_angle
      / steer_ratio * delay) }

/-- The MPC solution (`log_t`) produced by `libmpc.run_mpc` on a tick:
the `delta` and `rate` horizons and the scalar `cost`.  Solver contract
(spec section 6.2): `delta` has at least 2 samples, `rate` at least 1. -/
structure MpcSol where
  delta : List MF
  rate : List MF
  cost : MF
deriving DecidableEq

/-- Per-tick inputs read by `PathPlanner.update` from the message bus, the
car-parameter struct, and the external collaborators. -/
structure Inputs where
  vEgo : ℚ
  steeringAngle : ℚ
  steeringTorque : ℚ
  steeringPressed : Bool
  leftBlinker : Bool
  rightBlinker : Bool
  leftBlindspot : Bool
  rightBlindspot : Bool
  active : Bool
  angleOffset : ℚ
  stiffness_factor : ℚ
  steer_ratio : ℚ
  curvature_factor : ℚ
  steer_actuator_delay : ℚ
  l_prob : ℚ
  r_prob : ℚ
  l_lane_change_prob : ℚ
  r_lane_change_prob : ℚ
  boot_time : ℚ
  sol : MpcSol
deriving DecidableEq

/-- The persistent planner state mutated by `PathPlanner.update`
(source lines 55-102).  `lane_change_enabled` and `lane_change_auto_delay`
are read once at construction. -/
structure PlannerState where
  lane_change_enabled : Bool
  lane_change_auto_delay : ℚ
  lane_change_state : LaneChangeState
  lane_change_direction : LaneChangeDirection
  lane_change_run_timer : ℚ
  lane_change_wait_timer : ℚ
  lane_change_ll_prob : ℚ
  prev_one_blinker : Bool
  solution_invalid_cnt : Nat
  cur_state : KinState
  angle_steers_des_mpc : MF
  angle_steers_des_prev : MF
  last_cloudlog_t : ℚ
deriving DecidableEq

/-- The fields of the published `pathPlan` message that are computed by this
module (polynomial fields belong to the external LanePlanner). -/
structure PathPlanMsg where
  lProb : ℚ
  rProb : ℚ
  angleSteers : MF
  rateSteers : MF
  angleOffset : ℚ
  mpcSolutionValid : Bool
  desire : Desire
  laneChangeState : LaneChangeState
  laneChangeDirection : LaneChangeDirection
deriving DecidableEq

/-- Source lines 55-102 (`__init__` / `setup_mpc`): the freshly constructed
planner state. -/
def init_state (lane_change_enabled : Bool) (lane_change_auto_delay : ℚ) :
    PlannerState :=
  { lane_change_enabled := lane_change_enabled
    lane_change_auto_delay := lane_change_auto_delay
    lane_change_state := .off
    lane_change_direction := .none
    lane_change_run_timer := 0
    lane_change_wait_timer := 0
    lane_change_ll_prob := 1
    prev_one_blinker := false
    solution_invalid_cnt := 0
    cur_state := { x := MF.val 0, y := MF.val 0, psi := MF.val 0,
                   delta := MF.val 0 }
    angle_steers_des_mpc := MF.val 0
    angle_steers_des_prev := MF.val 0
    last_cloudlog_t := 0 }

/-- Source line 127: `one_blinker = leftBlinker != rightBlinker`. -/
def one_blinker (i : Inputs) : Bool := i.leftBlinker != i.rightBlinker

/-- Source line 119 combined with the vehicle-model contract: the effective
steer ratio `VM.sR` after `VM.update_params(x, max(steerRatio, 0.1))`. -/
def sr_of (i : Inputs) : ℚ := max i.steer_ratio 0.1

/-- Source lines 79-86: `PathPlanner.limit_ctrl`, clamping `value` between
`offset - limit` and `offset + limit` with float comparisons. -/
def limit_ctrl (value limit offset : MF) : MF :=
  let p_limit := MF.add offset limit
  let m_limit := MF.sub offset limit
  if value.fgt p_limit then p_limit
  else if value.flt m_limit then m_limit
  else value

/-- The result of the lane-change block, source lines 126-182: new state,
direction, lane-line probability and wait timer. -/
structure FsmOut where
  state : LaneChangeState
  dir : LaneChangeDirection
  ll_prob : ℚ
  wait_timer : ℚ
deriving DecidableEq

/-- Source lines 126-187: direction latching, the global override, and the
per-state transitions of the lane-change machine. -/
def fsm_step (s : PlannerState) (i : Inputs) : FsmOut :=
  let dir0 :=
    if i.leftBlinker then LaneChangeDirection.left
    else if i.rightBlinker then LaneChangeDirection.right
    else s.lane_change_direction
  if i.active = false ∨ s.lane_change_run_timer > LANE_CHANGE_TIME_MAX
      ∨ one_blinker i = false ∨ s.lane_change_enabled = false then
    { state := .off, dir := .none, ll_prob := s.lane_change_ll_prob,
      wait_timer := s.lane_change_wait_timer }
  else
    if s.lane_change_state = .off ∧ one_blinker i = true
        ∧ s.prev_one_blinker = false
        ∧ ¬ i.vEgo < LANE_CHANGE_SPEED_MIN then
      { state := .preLaneChange, dir := dir0, ll_prob := 1, wait_timer := 0 }
    else if s.lane_change_state = .preLaneChange then
      let wait' := s.lane_change_wait_timer + DT_MDL
      if one_blinker i = false ∨ i.vEgo < LANE_CHANGE_SPEED_MIN then
        { state := .off, dir := dir0, ll_prob := s.lane_change_ll_prob,
          wait_timer := wait' }
      else if ¬ ((i.leftBlindspot = true ∧ dir0 = .left)
            ∨ (i.rightBlindspot = true ∧ dir0 = .right))
          ∧ ((i.steeringPressed = true
              ∧ ((i.steeringTorque > 0 ∧ dir0 = .left)
                 ∨ (i.steeringTorque < 0 ∧ dir0 = .right)))
             ∨ (s.lane_change_auto_delay ≠ 0
                ∧ wait' > s.lane_change_auto_delay)) then
        { state := .laneChangeStarting, dir := dir0,
          ll_prob := s.lane_change_ll_prob, wait_timer := wait' }
      else
        { state := .preLaneChange, dir := dir0,
          ll_prob := s.lane_change_ll_prob, wait_timer := wait' }
    else if s.lane_change_state = .laneChangeStarting then
      let lane_time := interp (i.vEgo * 3.61) [40, 60, 70, 80] [0.5, 1, 1.5, 2]
      let ll' := max (s.lane_change_ll_prob - lane_time * DT_MDL) 0
      if i.l_lane_change_prob + i.r_lane_change_prob < 0.02 ∧ ll' < 0.01 then
        { state := .laneChangeFinishing, dir := dir0, ll_prob := ll',
          wait_timer := s.lane_change_wait_timer }
      else
        { state := .laneChangeStarting, dir := dir0, ll_prob := ll',
          wait_timer := s.lane_change_wait_timer }
    else if s.lane_change_state = .laneChangeFinishing then
      let ll' := min (s.lane_change_ll_prob + DT_MDL) 1
      if one_blinker i = true ∧ ll' > 0.99 then
        { state := .laneChangeDone, dir := dir0, ll_prob := ll',
          wait_timer := s.lane_change_wait_timer }
      else
        { state := .laneChangeFinishing, dir := dir0, ll_prob := ll',
          wait_timer := s.lane_change_wait_timer }
    else if s.lane_change_state = .laneChangeDone then
      if one_blinker i = false then
        { state := .off, dir := dir0, ll_prob := s.lane_change_ll_prob,
          wait_timer := s.lane_change_wait_timer }
      else
        { state := .laneChangeDone, dir := dir0,
          ll_prob := s.lane_change_ll_prob,
          wait_timer := s.lane_change_wait_timer }
    else
      { state := s.lane_change_state, dir := dir0,
        ll_prob := s.lane_change_ll_prob,
        wait_timer := s.lane_change_wait_timer }

/-- Source lines 213-218 (angle part): `delta_desired`, the one-step-ahead
solver delta when active, otherwise the offset-corrected measured angle in
road-wheel radians. -/
def delta_desired_of (i : Inputs) : MF :=
  if i.active = true then i.sol.delta.getD 1 MF.nan
  else MF.val (radiansQ (i.steeringAngle - i.angleOffset) / sr_of i)

/-- Source lines 221-222: the pre-limiter commanded angle
`org_angle_steers_des = degrees(delta_desired * VM.sR) + angle_offset`. -/
def org_angle (i : Inputs) : MF :=
  MF.add (MF.degrees (MF.mul (delta_desired_of i) (MF.val (sr_of i))))
    (MF.val i.angleOffset)

/-- Source lines 225-241: the steering-authority limiter applied to the
pre-limiter angle `org`: a driver-torque regime when `steeringPressed`,
otherwise an unconditional low-speed clamp below 30 km/h. -/
def authority_limit (i : Inputs) (org : MF) : MF :=
  if i.steeringPressed = true then
    let delta_steer := MF.sub org (MF.val i.steeringAngle)
    let limit_steers := interp i.steeringTorque [-450, 0, 450] [5, 0, 5]
    if i.steeringTorque < 0 then
      if delta_steer.fgt (MF.val 0) then
        limit_ctrl org (MF.val limit_steers) (MF.val i.steeringAngle)
      else org
    else if i.steeringTorque > 0 then
      if delta_steer.flt (MF.val 0) then
        limit_ctrl org (MF.val limit_steers) (MF.val i.steeringAngle)
      else org
    else org
  else if i.vEgo * 3.61 < 30 then
    let limit_steers := interp (i.vEgo * 3.61) [5, 15, 30] [1, 3, 5]
    limit_ctrl org (MF.val limit_steers) (MF.val i.steeringAngle)
  else org

/-- Source line 266: `mpc_nans = any(math.isnan(x) for x in delta)`. -/
def mpc_nans (sol : MpcSol) : Bool := sol.delta.any MF.isnan

/-- Source lines 104-301: one call of `PathPlanner.update`, returning the
new planner state and the published `pathPlan` message. -/
def update (s : PlannerState) (i : Inputs) : PlannerState × PathPlanMsg :=
  let sr := sr_of i
  let f := fsm_step s i
  let run_timer' :=
    if f.state = .off ∨ f.state = .preLaneChange then 0
    else s.lane_change_run_timer + DT_MDL
  let desire := desire_of f.dir f.state
  let l_prob :=
    if desire = Desire.laneChangeRight ∨ desire = Desire.laneChangeLeft then
      i.l_prob * f.ll_prob
    else i.l_prob
  let r_prob :=
    if desire = Desire.laneChangeRight ∨ desire = Desire.laneChangeLeft then
      i.r_prob * f.ll_prob
    else i.r_prob
  let cur1 := calc_states_after_delay s.cur_state i.vEgo
    (i.steeringAngle - i.angleOffset) i.curvature_factor sr
    i.steer_actuator_delay
  let delta_desired := delta_desired_of i
  let rate_desired :=
    if i.active = true then
      MF.degrees (MF.mul (i.sol.rate.getD 0 MF.nan) (MF.val sr))
    else MF.val 0
  let cur2 := { cur1 with delta := delta_desired }
  let angle_limited := authority_limit i (org_angle i)
  let nans := mpc_nans i.sol
  let cur3 :=
    if nans = true then
      { cur2 with
        delta := MF.val (radiansQ (i.steeringAngle - i.angleOffset) / sr) }
    else cur2
  let last_t :=
    if nans = true ∧ i.boot_time > s.last_cloudlog_t + 5 then i.boot_time
    else s.last_cloudlog_t
  let cnt' :=
    if (i.sol.cost.fgt (MF.val 20000) || nans) = true then
      s.solution_invalid_cnt + 1
    else 0
  let s' : PlannerState :=
    { s with
      lane_change_state := f.state
      lane_change_direction := f.dir
      lane_change_run_timer := run_timer'
      lane_change_wait_timer := f.wait_timer
      lane_change_ll_prob := f.ll_prob
      prev_one_blinker := one_blinker i
      solution_invalid_cnt := cnt'
      cur_state := cur3
      angle_steers_des_mpc := angle_limited
      angle_steers_des_prev := s.angle_steers_des_mpc
      last_cloudlog_t := last_t }
  let msg : PathPlanMsg :=
    { lProb := l_prob
      rProb := r_prob
      angleSteers := angle_limited
      rateSteers := rate_desired
      angleOffset := i.angleOffset
      mpcSolutionValid := decide (cnt' < 3)
      desire := desire
      laneChangeState := f.state
      laneChangeDirection := f.dir }
  (s', msg)

/-- A run of the planner: fold `update` over a list of per-tick inputs. -/
def run (s : PlannerState) (l : List Inputs) : PlannerState :=
  l.foldl (fun s i => (update s i).1) s

/-! Helper lemmas: projections of `update`, positivity facts, and bounds on
the interpolation tables used by the planner. -/

lemma update_lane_change_state (s : PlannerState) (i : Inputs) :
    (update s i).1.lane_change_state = (fsm_step s i).state := rfl

lemma update_lane_change_direction (s : PlannerState) (i : Inputs) :
    (update s i).1.lane_change_direction = (fsm_step s i).dir := rfl

lemma update_run_timer (s : PlannerState) (i : Inputs) :
    (update s i).1.lane_change_run_timer =
      if (fsm_step s i).state = .off ∨ (fsm_step s i).state = .preLaneChange
      then 0 else s.lane_change_run_timer + DT_MDL := rfl

lemma update_wait_timer (s : PlannerState) (i : Inputs) :
    (update s i).1.lane_change_wait_timer = (fsm_step s i).wait_timer := rfl

lemma update_ll_prob (s : PlannerState) (i : Inputs) :
    (update s i).1.lane_change_ll_prob = (fsm_step s i).ll_prob := rfl

lemma update_prev_one_blinker (s : PlannerState) (i : Inputs) :
    (update s i).1.prev_one_blinker = one_blinker i := rfl

lemma update_solution_invalid_cnt (s : PlannerState) (i : Inputs) :
    (update s i).1.solution_invalid_cnt =
      if (i.sol.cost.fgt (MF.val 20000) || mpc_nans i.sol) = true then
        s.solution_invalid_cnt + 1
      else 0 := rfl

lemma update_mpcSolutionValid (s : PlannerState) (i : Inputs) :
    (update s i).2.mpcSolutionValid =
      decide ((update s i).1.solution_invalid_cnt < 3) := rfl

lemma update_angleSteers (s : PlannerState) (i : Inputs) :
    (update s i).2.angleSteers = authority_limit i (org_angle i) := rfl

lemma update_rateSteers (s : PlannerState) (i : Inputs) :
    (update s i).2.rateSteers =
      if i.active = true then
        MF.degrees (MF.mul (i.sol.rate.getD 0 MF.nan) (MF.val (sr_of i)))
      else MF.val 0 := rfl

lemma update_cur_state_delta (s : PlannerState) (i : Inputs) :
    (update s i).1.cur_state.delta =
      if mpc_nans i.sol = true then
        MF.val (radiansQ (i.steeringAngle - i.angleOffset) / sr_of i)
      else delta_desired_of i := by
  by_cases h : mpc_nans i.sol <;> simp [update, h]

lemma run_cons (s : PlannerState) (i : Inputs) (l : List Inputs) :
    run s (i :: l) = run (update s i).1 l := rfl

lemma sr_of_pos (i : Inputs) : 0 < sr_of i :=
  lt_of_lt_of_le (by norm_num) (le_max_right i.steer_ratio 0.1)

lemma piQ_pos : 0 < piQ := by norm_num [piQ]

lemma degreesQ_radiansQ (x : ℚ) : degreesQ (radiansQ x) = x := by
  have h : piQ ≠ 0 := piQ_pos.ne'
  field_simp [degreesQ, radiansQ]

lemma interp_lowspeed_nonneg (x : ℚ) :
    0 ≤ interp x [5, 15, 30] [1, 3, 5] := by
  simp only [interp, interpAux]
  split_ifs <;> norm_num <;> nlinarith

lemma interp_torque_nonneg (x : ℚ) :
    0 ≤ interp x [-450, 0, 450] [5, 0, 5] := by
  simp only [interp, interpAux]
  split_ifs <;> norm_num <;> nlinarith

lemma interp_lane_time_nonneg (x : ℚ) :
    0 ≤ interp x [40, 60, 70, 80] [0.5, 1, 1.5, 2] := by
  simp only [interp, interpAux]
  split_ifs <;> norm_num <;> nlinarith

/-! Claim theorems. -/

/-- C9: `calc_states_after_delay` sets `x` to `v * delay` and `psi` to
`v * curvature_factor * radians(angle) / steer_ratio * delay`, and leaves
`y` and `delta` unchanged, for every input kinematic state, speed,
offset-corrected steering angle, curvature factor, steer ratio and delay. -/
theorem calc_states_after_delay_spec (st : KinState)
    (v a k sr τ : ℚ) :
    (calc_states_after_delay st v a k sr τ).x = MF.val (v * τ)
    ∧ (calc_states_after_delay st v a k sr τ).psi
        = MF.val (v * k * radiansQ a / sr * τ)
    ∧ (calc_states_after_delay st v a k sr τ).y = st.y
    ∧ (calc_states_after_delay st v a k sr τ).delta = st.delta :=
  ⟨rfl, rfl, rfl, rfl⟩

/-- C5: on every tick `solution_invalid_cnt` is incremented when the MPC
cost exceeds 20000 or the delta horizon contains a NaN and reset to 0
otherwise, and the published `mpcSolutionValid` is true exactly when the
updated counter is below 3. -/
theorem solution_invalid_cnt_spec (s : PlannerState) (i : Inputs) :
    (update s i).1.solution_invalid_cnt =
      (if (i.sol.cost.fgt (MF.val 20000) || mpc_nans i.sol) = true then
        s.solution_invalid_cnt + 1
      else 0)
    ∧ ((update s i).2.mpcSolutionValid = true
        ↔ (update s i).1.solution_invalid_cnt < 3) := by
  refine ⟨rfl, ?_⟩
  rw [update_mpcSolutionValid]
  exact decide_eq_true_iff

unseal Rat.add Rat.mul Rat.sub Rat.inv Rat.ofScientific in
/-- C3 counterexample: for the finite inputs value = 0, limit = -1,
offset = 0 the function returns offset + limit = -1, which does not lie in
the (empty) interval from offset - limit = 1 to offset + limit = -1, so the
claim fails as stated for all finite inputs. -/
theorem limit_ctrl_negative_limit_counterexample :
    limit_ctrl (MF.val 0) (MF.val (-1)) (MF.val 0) = MF.val (-1)
    ∧ ¬ ((0:ℚ) - (-1) ≤ -1 ∧ (-1:ℚ) ≤ 0 + (-1)) := by
  decide

/-- C3 amended: for all finite inputs with a nonnegative limit,
`limit_ctrl(value, limit, offset)` returns a value in the interval from
`offset - limit` to `offset + limit`, and returns `value` itself whenever
`value` already lies in that interval. -/
theorem limit_ctrl_clamps (v L O r : ℚ) (hL : 0 ≤ L)
    (hr : limit_ctrl (MF.val v) (MF.val L) (MF.val O) = MF.val r) :
    (O - L ≤ r ∧ r ≤ O + L) ∧ (O - L ≤ v → v ≤ O + L → r = v) := by
  simp only [limit_ctrl, MF.add, MF.sub, MF.fgt, MF.flt,
    decide_eq_true_eq] at hr
  split_ifs at hr with h1 h2 <;>
    rw [MF.val.injEq] at hr <;> subst hr <;>
    exact ⟨⟨by linarith, by linarith⟩, fun hv1 hv2 => by linarith⟩

unseal Rat.add Rat.mul Rat.sub Rat.inv Rat.ofScientific in
/-- C3 witness: the amended theorem applied at value 1, limit 2, offset 0. -/
theorem limit_ctrl_clamps_witness :
    ((0:ℚ) - 2 ≤ 1 ∧ (1:ℚ) ≤ 0 + 2)
    ∧ ((0:ℚ) - 2 ≤ 1 → (1:ℚ) ≤ 0 + 2 → (1:ℚ) = 1) :=
  limit_ctrl_clamps 1 2 0 1 (by norm_num) (by decide)

/-- C6: the published angle equals the pre-limiter MPC angle reshaped by
exactly two mutually exclusive regimes: with `steeringPressed`, a clamp
around `angle_steers` with the torque-interpolated limit applied only when
the torque sign opposes the planner delta, the angle passing unchanged
otherwise; else, below 30 km/h, an unconditional clamp with the
speed-interpolated limit. -/
theorem authority_limiter_regimes (s : PlannerState) (i : Inputs) :
    (update s i).2.angleSteers =
      if i.steeringPressed = true then
        (if (i.steeringTorque < 0
              ∧ (MF.sub (org_angle i) (MF.val i.steeringAngle)).fgt
                  (MF.val 0) = true)
            ∨ (i.steeringTorque > 0
              ∧ (MF.sub (org_angle i) (MF.val i.steeringAngle)).flt
                  (MF.val 0) = true) then
          limit_ctrl (org_angle i)
            (MF.val (interp i.steeringTorque [-450, 0, 450] [5, 0, 5]))
            (MF.val i.steeringAngle)
        else org_angle i)
      else if i.vEgo * 3.61 < 30 then
        limit_ctrl (org_angle i)
          (MF.val (interp (i.vEgo * 3.61) [5, 15, 30] [1, 3, 5]))
          (MF.val i.steeringAngle)
      else org_angle i := by
  rw [update_angleSteers]
  by_cases hp : i.steeringPressed = true
  · by_cases hneg : i.steeringTorque < 0
    · have hnpos : ¬ i.steeringTorque > 0 := by linarith
      by_cases hf : (MF.sub (org_angle i) (MF.val i.steeringAngle)).fgt
          (MF.val 0) = true
      · simp [authority_limit, hp, hneg, hf, hnpos]
      · simp [authority_limit, hp, hneg, hf, hnpos]
    · by_cases hpos : i.steeringTorque > 0
      · by_cases hf : (MF.sub (org_angle i) (MF.val i.steeringAngle)).flt
            (MF.val 0) = true
        · simp [authority_limit, hp, hneg, hpos, hf]
        · simp [authority_limit, hp, hneg, hpos, hf]
      · simp [authority_limit, hp, hneg, hpos]
  · by_cases hv : i.vEgo * 3.61 < 30
    · simp [authority_limit, hp, hv]
    · simp [authority_limit, hp, hv]

/-- Benign concrete MPC solution for concrete runs: no NaNs, zero cost. -/
def sol0 : MpcSol :=
  { delta := [MF.val 0, MF.val 0], rate := [MF.val 0], cost := MF.val 0 }

/-- Baseline concrete tick input for counterexamples and witnesses: engaged,
60 km/h + margin (20 m/s), straight wheel, no blinkers, benign solver
output. -/
def in0 : Inputs :=
  { vEgo := 20, steeringAngle := 0, steeringTorque := 0,
    steeringPressed := false, leftBlinker := false, rightBlinker := false,
    leftBlindspot := false, rightBlindspot := false, active := true,
    angleOffset := 0, stiffness_factor := 1, steer_ratio := 1,
    curvature_factor := 1, steer_actuator_delay := 0.1, l_prob := 1,
    r_prob := 1, l_lane_change_prob := 0, r_lane_change_prob := 0,
    boot_time := 0, sol := sol0 }

/-- C8: whenever controls are inactive, the run timer exceeds 10 s, there is
no single blinker, or lane changes are disabled, the tick forces the state
to Off and the direction to None before any per-state rule: the wait timer
and the lane-line probability are left untouched and the run timer is
cleared. -/
theorem global_override_forces_off (s : PlannerState) (i : Inputs)
    (h : i.active = false ∨ s.lane_change_run_timer > LANE_CHANGE_TIME_MAX
      ∨ one_blinker i = false ∨ s.lane_change_enabled = false) :
    (update s i).1.lane_change_state = LaneChangeState.off
    ∧ (update s i).1.lane_change_direction = LaneChangeDirection.none
    ∧ (update s i).1.lane_change_run_timer = 0
    ∧ (update s i).1.lane_change_wait_timer = s.lane_change_wait_timer
    ∧ (update s i).1.lane_change_ll_prob = s.lane_change_ll_prob := by
  have hf : fsm_step s i =
      { state := .off, dir := .none, ll_prob := s.lane_change_ll_prob,
        wait_timer := s.lane_change_wait_timer } := by
    simp only [fsm_step]
    rw [if_pos h]
  refine ⟨?_, ?_, ?_, ?_, ?_⟩ <;>
    simp [update_lane_change_state, update_lane_change_direction,
      update_run_timer, update_wait_timer, update_ll_prob, hf]

unseal Rat.add Rat.mul Rat.sub Rat.inv Rat.ofScientific in
/-- C8 witness: the override theorem applied to the baseline input with
controls inactive. -/
theorem global_override_forces_off_witness :
    (update (init_state true 0) { in0 with active := false
      }).1.lane_change_state = LaneChangeState.off
    ∧ (update (init_state true 0) { in0 with active := false
      }).1.lane_change_direction = LaneChangeDirection.none
    ∧ (update (init_state true 0) { in0 with active := false
      }).1.lane_change_run_timer = 0
    ∧ (update (init_state true 0) { in0 with active := false
      }).1.lane_change_wait_timer = (init_state true 0).lane_change_wait_timer
    ∧ (update (init_state true 0) { in0 with active := false
      }).1.lane_change_ll_prob = (init_state true 0).lane_change_ll_prob :=
  global_override_forces_off (init_state true 0)
    { in0 with active := false } (Or.inl rfl)

/-- First tick of the C1 counterexample run: left blinker comes on above the
minimum lane-change speed, so the machine enters PreLaneChange latching
direction Left. -/
def c1_i1 : Inputs := { in0 with leftBlinker := true }

/-- Second tick of the C1 counterexample run: blinker still held but speed
drops below the minimum, so PreLaneChange exits to Off without clearing the
latched direction. -/
def c1_i2 : Inputs := { in0 with leftBlinker := true, vEgo := 10 }

unseal Rat.add Rat.mul Rat.sub Rat.inv Rat.ofScientific in
/-- C1 counterexample: two ticks from construction (blinker rising edge at
20 m/s, then the same blinker at 10 m/s) leave the machine with lane-change
state Off and lane-change direction Left, not None, and that pair is
published; the claimed Off-implies-None invariant fails at this tick
boundary. -/
theorem off_direction_none_counterexample :
    (run (init_state true 0) [c1_i1, c1_i2]).lane_change_state
      = LaneChangeState.off
    ∧ (run (init_state true 0) [c1_i1, c1_i2]).lane_change_direction
      ≠ LaneChangeDirection.none
    ∧ (update (update (init_state true 0) c1_i1).1 c1_i2).2.laneChangeState
      = LaneChangeState.off
    ∧ (update (update (init_state true 0) c1_i1).1 c1_i2).2.laneChangeDirection
      = LaneChangeDirection.left := by
  decide

/-- C1 amended: at every tick boundary, if the lane-change state is Off then
the run timer is 0.  The direction need not be None: it stays latched
Left/Right when Off is entered through a per-state transition such as the
below-speed PreLaneChange exit; direction is cleared together with the
forced Off only on global-override ticks. -/
theorem off_run_timer_zero (s : PlannerState) (i : Inputs)
    (h : (update s i).1.lane_change_state = LaneChangeState.off) :
    (update s i).1.lane_change_run_timer = 0 := by
  rw [update_lane_change_state] at h
  rw [update_run_timer, if_pos (Or.inl h)]

unseal Rat.add Rat.mul Rat.sub Rat.inv Rat.ofScientific in
/-- C1 witness: the amended theorem applied to a tick that ends in Off. -/
theorem off_run_timer_zero_witness :
    (update (init_state true 0) in0).1.lane_change_run_timer = 0 :=
  off_run_timer_zero (init_state true 0) in0 (by decide)

lemma fsm_step_off_stays (s : PlannerState) (i : Inputs)
    (h1 : s.lane_change_state = LaneChangeState.off)
    (h2 : s.prev_one_blinker = true) :
    (fsm_step s i).state = LaneChangeState.off := by
  simp only [fsm_step]
  by_cases ho : i.active = false
      ∨ s.lane_change_run_timer > LANE_CHANGE_TIME_MAX
      ∨ one_blinker i = false ∨ s.lane_change_enabled = false
  · rw [if_pos ho]
  · rw [if_neg ho]
    rw [if_neg (by rintro ⟨-, -, hpf, -⟩; rw [h2] at hpf; cases hpf)]
    rw [if_neg (show ¬ s.lane_change_state = LaneChangeState.preLaneChange
      by simp [h1])]
    rw [if_neg (show ¬ s.lane_change_state = LaneChangeState.laneChangeStarting
      by simp [h1])]
    rw [if_neg
      (show ¬ s.lane_change_state = LaneChangeState.laneChangeFinishing
        by simp [h1])]
    rw [if_neg (show ¬ s.lane_change_state = LaneChangeState.laneChangeDone
      by simp [h1])]
    exact h1

/-- C10: the Off state is left only on a rising blinker edge: starting from
Off with the previous-blinker latch already set, any sequence of ticks on
which `one_blinker` stays true keeps the machine in Off, whatever the speed
on those ticks; the blinker must first be released and re-applied. -/
theorem blinker_held_requires_edge (s : PlannerState) (l : List Inputs)
    (h1 : s.lane_change_state = LaneChangeState.off)
    (h2 : s.prev_one_blinker = true)
    (h3 : ∀ i ∈ l, one_blinker i = true) :
    (run s l).lane_change_state = LaneChangeState.off := by
  induction l generalizing s with
  | nil => simpa [run] using h1
  | cons i t ih =>
      rw [run_cons]
      refine ih (update s i).1 ?_ ?_ (fun j hj => h3 j (List.mem_cons_of_mem i hj))
      · rw [update_lane_change_state]
        exact fsm_step_off_stays s i h1 h2
      · rw [update_prev_one_blinker]
        exact h3 i (List.mem_cons_self i t)

/-- Concrete state for the C10 witness: freshly constructed planner that has
already seen the blinker (previous-blinker latch set). -/
def c10_s : PlannerState := { init_state true 0 with prev_one_blinker := true }

/-- Concrete input for the C10 witness: left blinker held above the minimum
lane-change speed. -/
def c10_i : Inputs := { in0 with leftBlinker := true }

unseal Rat.add Rat.mul Rat.sub Rat.inv Rat.ofScientific in
/-- C10 witness: with the blinker already seen, one fast blinker-on tick
does not leave Off. -/
theorem blinker_held_requires_edge_witness :
    (run c10_s [c10_i]).lane_change_state = LaneChangeState.off :=
  blinker_held_requires_edge c10_s [c10_i] rfl rfl (by decide)

set_option maxHeartbeats 1000000 in
lemma fsm_step_ll_prob_bounds (s : PlannerState) (i : Inputs)
    (h0 : 0 ≤ s.lane_change_ll_prob) (h1 : s.lane_change_ll_prob ≤ 1) :
    0 ≤ (fsm_step s i).ll_prob ∧ (fsm_step s i).ll_prob ≤ 1 := by
  have hlt : 0 ≤ interp (i.vEgo * 3.61) [40, 60, 70, 80] [0.5, 1, 1.5, 2] :=
    interp_lane_time_nonneg _
  have hdt : (0:ℚ) ≤ DT_MDL := by norm_num [DT_MDL]
  have hprod : 0 ≤ interp (i.vEgo * 3.61) [40, 60, 70, 80] [0.5, 1, 1.5, 2]
      * DT_MDL := mul_nonneg hlt hdt
  simp only [fsm_step]
  split_ifs
  all_goals constructor
  all_goals first
    | exact h0
    | exact h1
    | exact le_max_right _ _
    | exact max_le (by linarith) (by norm_num)
    | exact min_le_right _ _
    | exact le_min (by linarith) (by norm_num)
    | norm_num

lemma run_ll_prob_bounds (s : PlannerState) (l : List Inputs)
    (h0 : 0 ≤ s.lane_change_ll_prob) (h1 : s.lane_change_ll_prob ≤ 1) :
    0 ≤ (run s l).lane_change_ll_prob
    ∧ (run s l).lane_change_ll_prob ≤ 1 := by
  induction l generalizing s with
  | nil => exact ⟨h0, h1⟩
  | cons i t ih =>
      rw [run_cons]
      have hb := fsm_step_ll_prob_bounds s i h0 h1
      rw [← update_ll_prob] at hb
      exact ih (update s i).1 hb.1 hb.2

/-- C7: starting from construction, after any sequence of ticks the
lane-line probability multiplier lies in the unit interval: it starts at 1,
is decremented with a floor of 0 in Starting, incremented with a ceiling of
1 in Finishing, reset to 1 on entering PreLaneChange, and untouched
otherwise. -/
theorem ll_prob_in_unit_interval (e : Bool) (d : ℚ) (l : List Inputs) :
    0 ≤ (run (init_state e d) l).lane_change_ll_prob
    ∧ (run (init_state e d) l).lane_change_ll_prob ≤ 1 :=
  run_ll_prob_bounds (init_state e d) l (by norm_num [init_state])
    (by norm_num [init_state])

lemma delta_desired_inactive (i : Inputs) (h : i.active = false) :
    delta_desired_of i
      = MF.val (radiansQ (i.steeringAngle - i.angleOffset) / sr_of i) := by
  simp [delta_desired_of, h]

lemma org_angle_inactive (i : Inputs) (h : i.active = false) :
    org_angle i = MF.val i.steeringAngle := by
  rw [org_angle, delta_desired_inactive i h]
  simp only [MF.mul, MF.degrees, MF.add]
  congr 1
  rw [div_mul_cancel₀ _ (sr_of_pos i).ne', degreesQ_radiansQ]
  ring

lemma limit_ctrl_at_offset (a L : ℚ) (hL : 0 ≤ L) :
    limit_ctrl (MF.val a) (MF.val L) (MF.val a) = MF.val a := by
  simp only [limit_ctrl, MF.add, MF.sub, MF.fgt, MF.flt, decide_eq_true_eq]
  rw [if_neg (by push_neg; linarith), if_neg (by push_neg; linarith)]

lemma authority_limit_fixed (i : Inputs) :
    authority_limit i (MF.val i.steeringAngle) = MF.val i.steeringAngle := by
  have hfgt : (MF.sub (MF.val i.steeringAngle)
      (MF.val i.steeringAngle)).fgt (MF.val 0) = false := by
    simp [MF.sub, MF.fgt]
  have hflt : (MF.sub (MF.val i.steeringAngle)
      (MF.val i.steeringAngle)).flt (MF.val 0) = false := by
    simp [MF.sub, MF.flt]
  by_cases hp : i.steeringPressed = true
  · by_cases hneg : i.steeringTorque < 0
    · simp [authority_limit, hp, hneg, hfgt]
    · by_cases hpos : i.steeringTorque > 0
      · simp [authority_limit, hp, hneg, hpos, hflt]
      · simp [authority_limit, hp, hneg, hpos]
  · by_cases hv : i.vEgo * 3.61 < 30
    · simpa [authority_limit, hp, hv] using
        limit_ctrl_at_offset i.steeringAngle _
          (interp_lowspeed_nonneg (i.vEgo * 3.61))
    · simp [authority_limit, hp, hv]

/-- C4: on an inactive tick the commanded road-wheel delta is reset to
`radians(angle_steers - angle_offset) / sr`, the published `angleSteers`
equals the measured steering angle exactly, and the published `rateSteers`
is 0. -/
theorem inactive_tracks_driver (s : PlannerState) (i : Inputs)
    (h : i.active = false) :
    (update s i).1.cur_state.delta
      = MF.val (radiansQ (i.steeringAngle - i.angleOffset) / sr_of i)
    ∧ (update s i).2.angleSteers = MF.val i.steeringAngle
    ∧ (update s i).2.rateSteers = MF.val 0 := by
  refine ⟨?_, ?_, ?_⟩
  · rw [update_cur_state_delta, delta_desired_inactive i h]
    split_ifs <;> rfl
  · rw [update_angleSteers, org_angle_inactive i h, authority_limit_fixed]
  · rw [update_rateSteers, if_neg (by simp [h])]

/-- Concrete inactive input for the C4 witness. -/
def c4_i : Inputs := { in0 with active := false }

/-- C4 witness: the theorem applied to a concrete inactive tick. -/
theorem inactive_tracks_driver_witness :
    (update (init_state true 0) c4_i).1.cur_state.delta
      = MF.val (radiansQ (c4_i.steeringAngle - c4_i.angleOffset) / sr_of c4_i)
    ∧ (update (init_state true 0) c4_i).2.angleSteers
      = MF.val c4_i.steeringAngle
    ∧ (update (init_state true 0) c4_i).2.rateSteers = MF.val 0 :=
  inactive_tracks_driver (init_state true 0) c4_i rfl

/-- C2 amended: on ticks where the MPC delta horizon has no NaN and the
authority limiter leaves the pre-limiter angle unchanged, the published
`angleSteers` equals `degrees(cur_state.delta * sr) + angle_offset` for the
end-of-tick `cur_state.delta`.  On clamped ticks the published angle
diverges from that expression, and on NaN ticks `cur_state.delta` is reset
while the published angle is not. -/
theorem angle_published_matches_delta (s : PlannerState) (i : Inputs)
    (h1 : mpc_nans i.sol = false)
    (h2 : authority_limit i (org_angle i) = org_angle i) :
    (update s i).2.angleSteers =
      MF.add (MF.degrees (MF.mul ((update s i).1.cur_state.delta)
        (MF.val (sr_of i)))) (MF.val i.angleOffset) := by
  rw [update_angleSteers, h2, update_cur_state_delta, if_neg (by simp [h1])]
  rfl

/-- Concrete input for the C2 witness: engaged, 36.1 km/h, wheel not
pressed, so neither limiter regime applies. -/
def c2w_i : Inputs := { in0 with vEgo := 10 }

unseal Rat.add Rat.mul Rat.sub Rat.inv Rat.ofScientific in
/-- C2 witness: the amended theorem applied to a concrete unclamped
NaN-free tick. -/
theorem angle_published_matches_delta_witness :
    (update (init_state true 0) c2w_i).2.angleSteers =
      MF.add (MF.degrees (MF.mul
        ((update (init_state true 0) c2w_i).1.cur_state.delta)
        (MF.val (sr_of c2w_i)))) (MF.val c2w_i.angleOffset) :=
  angle_published_matches_delta (init_state true 0) c2w_i rfl (by decide)

/-- MPC solution for the C2 counterexample: finite, no NaNs, commanding 10
degrees at the wheel. -/
def c2c_sol : MpcSol :=
  { delta := [MF.val 0, MF.val (radiansQ 10)], rate := [MF.val 0],
    cost := MF.val 0 }

/-- Input for the C2 counterexample: engaged at 1 m/s (3.61 km/h), so the
low-speed regime clamps the commanded 10 degrees to 1 degree. -/
def c2c_i : Inputs := { in0 with vEgo := 1, sol := c2c_sol }

unseal Rat.add Rat.mul Rat.sub Rat.inv Rat.ofScientific in
/-- C2 counterexample: on a clamped tick (active, NaN-free, commanded 10
degrees, low-speed limit 1 degree) the published `angleSteers` is not
`degrees(cur_state.delta * sr) + angle_offset`: the limiter changed the
published angle but not `cur_state.delta`. -/
theorem angle_published_matches_delta_counterexample :
    (update (init_state true 0) c2c_i).2.angleSteers ≠
      MF.add (MF.degrees (MF.mul
        ((update (init_state true 0) c2c_i).1.cur_state.delta)
        (MF.val (sr_of c2c_i)))) (MF.val c2c_i.angleOffset) := by
  decide
